import Mathlib

/-
Verification of the datascape dashboard (src/app.py): a straight-line
script that loads an obesity survey table, derives an AgeBand column,
reads five sidebar widget selections, filters the rows, and renders one
bar chart.  We embed the data model and each step as pure Lean functions
over lists of records and prove the spec's properties about them.
-/

namespace Datascape

/-- One survey row, with the columns the program reads
(`Gender, Age, FAVC, FAF, CALC, family_history_with_overweight, NObeyesdad`).
`Age` and `FAF` are numeric columns, modelled as rationals. -/
structure Record where
  gender : String
  age : ℚ
  favc : String
  faf : ℚ
  calcField : String
  familyHistory : String
  nobeyesdad : String
deriving DecidableEq

/-- The derived age bucket, from
`pd.cut(df["Age"], bins=[0,20,25,30,40,100], labels=["<20","20-25","26-30","31-40","41+"])`:
exclusive-left, inclusive-right bins; an age outside every bin gets no
label (pandas NaN), modelled as `none`. -/
def ageBand (a : ℚ) : Option String :=
  if 0 < a ∧ a ≤ 20 then some "<20"
  else if 20 < a ∧ a ≤ 25 then some "20-25"
  else if 25 < a ∧ a ≤ 30 then some "26-30"
  else if 30 < a ∧ a ≤ 40 then some "31-40"
  else if 40 < a ∧ a ≤ 100 then some "41+"
  else none

/-- A loaded row: the raw record together with its `AgeBand` column. -/
structure Row where
  raw : Record
  ageBandCol : Option String
deriving DecidableEq

/-- Loading (`df = pd.read_csv(...)` followed by `df["AgeBand"] = pd.cut(...)`):
the table is the ordered sequence of records, each extended once with its
derived AgeBand. -/
def loadTable (recs : List Record) : List Row :=
  recs.map (fun r => ⟨r, ageBand r.age⟩)

/-- The five sidebar widget values: `gender`, `favc`, `calc`, `fh` are
multi-select lists; `faf` is the slider value. -/
structure Selection where
  gender : List String
  favc : List String
  faf : ℚ
  calcSel : List String
  fh : List String
deriving DecidableEq

/-- The boolean mask of app.py lines 17-22, per row:
`(df["Gender"].isin(gender) if gender else True) & (df["FAVC"].isin(favc)
if favc else True) & (df["CALC"].isin(calc) if calc else True) &
(df["FAF"] >= faf)`.  A Python empty list is falsy, so an empty
multi-select yields the constant `True` arm.  The `fh` selection is not
consulted, exactly as in the source. -/
def rowMask (s : Selection) (r : Row) : Bool :=
  (if s.gender = [] then true else decide (r.raw.gender ∈ s.gender)) &&
  (if s.favc = [] then true else decide (r.raw.favc ∈ s.favc)) &&
  (if s.calcSel = [] then true else decide (r.raw.calcField ∈ s.calcSel)) &&
  decide (s.faf ≤ r.raw.faf)

/-- `filtered = df[mask]`: the subsequence of rows whose mask bit is set. -/
def filterTable (s : Selection) (t : List Row) : List Row :=
  t.filter (rowMask s)

/-- The spec's statement of the mask, written from its words: each
multi-select dimension passes when the row's value is selected or the
selection is empty, and FAF is an inclusive lower bound. -/
def specMask (s : Selection) (r : Row) : Prop :=
  (r.raw.gender ∈ s.gender ∨ s.gender = []) ∧
  (r.raw.favc ∈ s.favc ∨ s.favc = []) ∧
  (r.raw.calcField ∈ s.calcSel ∨ s.calcSel = []) ∧
  s.faf ≤ r.raw.faf

instance (s : Selection) (r : Row) : Decidable (specMask s r) := by
  unfold specMask; infer_instance

/-- The mask with the Gender dimension ignored entirely (spec-side
comparison point for the empty-multi-select pass-through property). -/
def rowMaskNoGender (s : Selection) (r : Row) : Bool :=
  (if s.favc = [] then true else decide (r.raw.favc ∈ s.favc)) &&
  (if s.calcSel = [] then true else decide (r.raw.calcField ∈ s.calcSel)) &&
  decide (s.faf ≤ r.raw.faf)

/-- Modelled from the spec: the `px.bar(filtered, x="Gender",
color="NObeyesdad", title="Obesity by Gender")` call on line 25 invokes
the external plotting library, whose code is not in src/.  Per the spec,
it groups the filtered rows by (Gender, NObeyesdad), counts occurrences
per group, and renders one bar per group of height equal to that count,
under a fixed title.  We model the rendered figure as the title plus the
association list of per-group counts. -/
structure Chart where
  title : String
  counts : List ((String × String) × Nat)
deriving DecidableEq

/-- Insert one row's (Gender, NObeyesdad) key into the running counts. -/
def bumpCount (k : String × String) : List ((String × String) × Nat) → List ((String × String) × Nat)
  | [] => [(k, 1)]
  | (q, n) :: rest => if k = q then (q, n + 1) :: rest else (q, n) :: bumpCount k rest

/-- Group the rows by (Gender, NObeyesdad) and count each group. -/
def groupCounts (rows : List Row) : List ((String × String) × Nat) :=
  rows.foldr (fun r acc => bumpCount (r.raw.gender, r.raw.nobeyesdad) acc) []

/-- Modelled from the spec: the figure produced by `px.bar` on the
filtered view (see `Chart`). -/
def renderChart (rows : List Row) : Chart :=
  ⟨"Obesity by Gender", groupCounts rows⟩

/-- Height of the bar for one (Gender, NObeyesdad) group: its recorded
count, or zero when the group is absent from the chart. -/
def barHeight : List ((String × String) × Nat) → String × String → Nat
  | [], _ => 0
  | (q, n) :: rest, k => if k = q then n else barHeight rest k

/-- The three-row table of the spec's end-to-end scenario (section 8):
(Male,25,no,1,Sometimes,no,Normal), (Female,19,yes,0,no,yes,Obesity),
(Male,42,no,3,Frequently,no,Overweight). -/
def demoRecords : List Record :=
  [ ⟨"Male", 25, "no", 1, "Sometimes", "no", "Normal"⟩,
    ⟨"Female", 19, "yes", 0, "no", "yes", "Obesity"⟩,
    ⟨"Male", 42, "no", 3, "Frequently", "no", "Overweight"⟩ ]

/-- The scenario's widget state: Gender = ["Male"], FAF slider at 1, all
other multi-selects empty. -/
def demoSelection : Selection :=
  { gender := ["Male"], favc := [], faf := 1, calcSel := [], fh := [] }

/-- A widget state matching no row of the demo table (used to exercise
the empty-filtered-view path). -/
def demoEmptySelection : Selection :=
  { gender := ["Nonbinary"], favc := [], faf := 0, calcSel := [], fh := [] }

/-- The first scenario row as loaded (AgeBand of 25 is "20-25"). -/
def demoRow1 : Row := ⟨⟨"Male", 25, "no", 1, "Sometimes", "no", "Normal"⟩, some "20-25"⟩

/-- The third scenario row as loaded (AgeBand of 42 is "41+"). -/
def demoRow3 : Row := ⟨⟨"Male", 42, "no", 3, "Frequently", "no", "Overweight"⟩, some "41+"⟩

/-- A widget state with every multi-select non-empty (used to exercise
the monotonicity properties). -/
def demoFullSelection : Selection :=
  { gender := ["Male"], favc := ["no"], faf := 1, calcSel := ["Sometimes"], fh := [] }

/-! Bridging lemmas between the source mask and the spec's wording. -/

lemma rowMask_eq_true_iff (s : Selection) (r : Row) :
    rowMask s r = true ↔ specMask s r := by
  unfold rowMask specMask
  rcases s with ⟨g, fv, fa, ca, fh⟩
  constructor
  · intro h
    simp only [Bool.and_eq_true, decide_eq_true_eq] at h
    obtain ⟨⟨⟨h1, h2⟩, h3⟩, h4⟩ := h
    refine ⟨?_, ?_, ?_, h4⟩
    · by_cases hg : g = []
      · exact Or.inr hg
      · rw [if_neg hg] at h1; exact Or.inl (of_decide_eq_true h1)
    · by_cases hf : fv = []
      · exact Or.inr hf
      · rw [if_neg hf] at h2; exact Or.inl (of_decide_eq_true h2)
    · by_cases hc : ca = []
      · exact Or.inr hc
      · rw [if_neg hc] at h3; exact Or.inl (of_decide_eq_true h3)
  · rintro ⟨h1, h2, h3, h4⟩
    simp only [Bool.and_eq_true, decide_eq_true_eq]
    refine ⟨⟨⟨?_, ?_⟩, ?_⟩, h4⟩
    · rcases h1 with h | h
      · split
        · rfl
        · exact decide_eq_true h
      · rw [if_pos h]
    · rcases h2 with h | h
      · split
        · rfl
        · exact decide_eq_true h
      · rw [if_pos h]
    · rcases h3 with h | h
      · split
        · rfl
        · exact decide_eq_true h
      · rw [if_pos h]

lemma mem_filterTable_iff (s : Selection) (t : List Row) (r : Row) :
    r ∈ filterTable s t ↔ r ∈ t ∧ specMask s r := by
  unfold filterTable
  rw [List.mem_filter, rowMask_eq_true_iff]

/-- C1: the filtered view contains exactly the rows of the table that
satisfy the conjunction (Gender selected or no gender selection) AND
(FAVC selected or none) AND (CALC selected or none) AND (FAF at or above
the slider value); and with the Gender multi-select empty the filtered
view coincides with the view computed ignoring the Gender dimension
entirely. -/
theorem c1_mask_semantics (t : List Row) (s : Selection) :
    (∀ r : Row, r ∈ filterTable s t ↔ r ∈ t ∧ specMask s r) ∧
    filterTable { s with gender := [] } t = t.filter (rowMaskNoGender s) := by
  constructor
  · intro r; exact mem_filterTable_iff s t r
  · unfold filterTable
    apply List.filter_congr
    intro r _
    unfold rowMask rowMaskNoGender
    simp only [if_pos rfl, Bool.true_and]
    rfl

/-- C2: the family-history multi-select is collected but never read by
the filter: two runs over the same table whose selections differ only in
the `fh` component produce identical filtered views. -/
theorem c2_family_history_dead (t : List Row) (s : Selection)
    (fh1 fh2 : List String) :
    filterTable { s with fh := fh1 } t = filterTable { s with fh := fh2 } t := rfl

/-! Characterization of each age bucket. -/

lemma ageBand_eq_lt20 (a : ℚ) : ageBand a = some "<20" ↔ 0 < a ∧ a ≤ 20 := by
  unfold ageBand; split_ifs <;> simp_all

lemma ageBand_eq_2025 (a : ℚ) : ageBand a = some "20-25" ↔ 20 < a ∧ a ≤ 25 := by
  unfold ageBand; split_ifs <;> simp_all

lemma ageBand_eq_2630 (a : ℚ) : ageBand a = some "26-30" ↔ 25 < a ∧ a ≤ 30 := by
  unfold ageBand; split_ifs <;> simp_all <;> intro h <;> linarith

lemma ageBand_eq_3140 (a : ℚ) : ageBand a = some "31-40" ↔ 30 < a ∧ a ≤ 40 := by
  unfold ageBand; split_ifs <;> simp_all <;> intro h <;> linarith

lemma ageBand_eq_41p (a : ℚ) : ageBand a = some "41+" ↔ 40 < a ∧ a ≤ 100 := by
  unfold ageBand; split_ifs <;> simp_all <;> intro h <;> linarith

lemma ageBand_eq_none (a : ℚ) : ageBand a = none ↔ a ≤ 0 ∨ 100 < a := by
  unfold ageBand; split_ifs with h1 h2 h3 h4 h5 <;> simp_all
  · linarith [h1.2]
  · exact ⟨by linarith [h2.1], by linarith [h2.2]⟩
  · exact ⟨by linarith [h3.1], by linarith [h3.2]⟩
  · exact ⟨by linarith [h4.1], by linarith [h4.2]⟩
  · linarith [h5.1]
  · rcases le_or_lt a 0 with h0 | h0
    · exact Or.inl h0
    · exact Or.inr (h5 (h4 (h3 (h2 (h1 h0)))))

/-- C3: AgeBand is a pure function of Age given by the fixed buckets
with exclusive-left, inclusive-right semantics and labels "<20",
"20-25", "26-30", "31-40", "41+"; ages 19 and 20 map to "<20", 21 to
"20-25", 41 to "41+", and any age outside the interval from 0
(exclusive) to 100 (inclusive) yields a missing band. -/
theorem c3_ageband_buckets :
    (∀ a : ℚ,
      (ageBand a = some "<20" ↔ 0 < a ∧ a ≤ 20) ∧
      (ageBand a = some "20-25" ↔ 20 < a ∧ a ≤ 25) ∧
      (ageBand a = some "26-30" ↔ 25 < a ∧ a ≤ 30) ∧
      (ageBand a = some "31-40" ↔ 30 < a ∧ a ≤ 40) ∧
      (ageBand a = some "41+" ↔ 40 < a ∧ a ≤ 100) ∧
      (ageBand a = none ↔ a ≤ 0 ∨ 100 < a)) ∧
    ageBand 19 = some "<20" ∧ ageBand 20 = some "<20" ∧
    ageBand 21 = some "20-25" ∧ ageBand 41 = some "41+" :=
  ⟨fun a => ⟨ageBand_eq_lt20 a, ageBand_eq_2025 a, ageBand_eq_2630 a,
    ageBand_eq_3140 a, ageBand_eq_41p a, ageBand_eq_none a⟩,
   by decide, by decide, by decide, by decide⟩

/-- C4: the FAF threshold is inclusive: a row whose FAF equals the
slider value passes the FAF conjunct, so it is retained whenever it
satisfies the other selected filters. -/
theorem c4_faf_inclusive (t : List Row) (s : Selection) (r : Row)
    (hmem : r ∈ t) (hfaf : r.raw.faf = s.faf)
    (hg : r.raw.gender ∈ s.gender ∨ s.gender = [])
    (hfv : r.raw.favc ∈ s.favc ∨ s.favc = [])
    (hc : r.raw.calcField ∈ s.calcSel ∨ s.calcSel = []) :
    r ∈ filterTable s t :=
  (mem_filterTable_iff s t r).mpr ⟨hmem, hg, hfv, hc, le_of_eq hfaf.symm⟩

/-- Witness for C4 at the demo table: the first scenario row has FAF
exactly 1, equal to the slider value, and is retained. -/
theorem c4_faf_inclusive_witness :
    (⟨⟨"Male", 25, "no", 1, "Sometimes", "no", "Normal"⟩, some "20-25"⟩ : Row).raw.faf
        = demoSelection.faf ∧
    (⟨⟨"Male", 25, "no", 1, "Sometimes", "no", "Normal"⟩, some "20-25"⟩ : Row) ∈
      filterTable demoSelection (loadTable demoRecords) :=
  ⟨by decide,
   c4_faf_inclusive (loadTable demoRecords) demoSelection
     ⟨⟨"Male", 25, "no", 1, "Sometimes", "no", "Normal"⟩, some "20-25"⟩
     (by decide) (by decide) (by decide) (by decide) (by decide)⟩

/-- C5: the end-to-end scenario: with Gender = ["Male"], FAF slider 1
and all other multi-selects empty, the filtered view of the three-row
demo table is exactly its first and third rows, and the chart shows the
"Male" category with two series, Normal and Overweight, each of count 1. -/
theorem c5_scenario :
    filterTable demoSelection (loadTable demoRecords) =
      [⟨⟨"Male", 25, "no", 1, "Sometimes", "no", "Normal"⟩, some "20-25"⟩,
       ⟨⟨"Male", 42, "no", 3, "Frequently", "no", "Overweight"⟩, some "41+"⟩] ∧
    (renderChart (filterTable demoSelection (loadTable demoRecords))).title =
      "Obesity by Gender" ∧
    barHeight (renderChart (filterTable demoSelection (loadTable demoRecords))).counts
      ("Male", "Normal") = 1 ∧
    barHeight (renderChart (filterTable demoSelection (loadTable demoRecords))).counts
      ("Male", "Overweight") = 1 ∧
    (renderChart (filterTable demoSelection (loadTable demoRecords))).counts.length = 2 := by
  decide

/-! Counting lemmas for the chart model. -/

lemma barHeight_bumpCount (k q : String × String) (l : List ((String × String) × Nat)) :
    barHeight (bumpCount k l) q = (if q = k then 1 else 0) + barHeight l q := by
  induction l with
  | nil =>
    unfold bumpCount barHeight
    by_cases h : q = k <;> simp [h, barHeight]
  | cons p rest ih =>
    obtain ⟨pk, pn⟩ := p
    unfold bumpCount
    by_cases hk : k = pk
    · subst hk
      unfold barHeight
      by_cases hq : q = k <;> simp [hq] <;> omega
    · rw [if_neg hk]
      unfold barHeight
      by_cases hq : q = pk
      · subst hq
        rw [if_pos rfl, if_pos rfl, if_neg (by intro h; exact hk h.symm)]
        simp
      · rw [if_neg hq, if_neg hq, ih]

lemma barHeight_groupCounts (rows : List Row) (g c : String) :
    barHeight (groupCounts rows) (g, c) =
      (rows.filter (fun r => decide (r.raw.gender = g ∧ r.raw.nobeyesdad = c))).length := by
  induction rows with
  | nil => rfl
  | cons r rest ih =>
    unfold groupCounts at *
    simp only [List.foldr_cons, List.filter_cons]
    rw [barHeight_bumpCount]
    by_cases h : r.raw.gender = g ∧ r.raw.nobeyesdad = c
    · rw [if_pos (by simp [h.1, h.2]), decide_eq_true h]
      simp [ih]
      omega
    · rw [if_neg (by simp; intro h1 h2; exact h ⟨h1.symm, h2.symm⟩), decide_eq_false h]
      simp [ih]

/-- C6: the rendered chart carries the fixed title "Obesity by Gender",
and for every (Gender, NObeyesdad) pair the height of its bar equals the
number of filtered rows in that group. -/
theorem c6_chart_render (rows : List Row) (g c : String) :
    (renderChart rows).title = "Obesity by Gender" ∧
    barHeight (renderChart rows).counts (g, c) =
      (rows.filter (fun r => decide (r.raw.gender = g ∧ r.raw.nobeyesdad = c))).length :=
  ⟨rfl, barHeight_groupCounts rows g c⟩

/-- C7: an empty filtered view is valid downstream: whenever the mask
matches no rows, rendering still succeeds (the renderer is total) and
yields the empty chart under the fixed title. -/
theorem c7_empty_view_renders (t : List Row) (s : Selection)
    (h : filterTable s t = []) :
    renderChart (filterTable s t) = ⟨"Obesity by Gender", []⟩ := by
  rw [h]; rfl

/-- Witness for C7: on the demo table a selection matching no row gives
the empty view, and the chart rendered from it is the empty chart. -/
theorem c7_empty_view_renders_witness :
    filterTable demoEmptySelection (loadTable demoRecords) = [] ∧
    renderChart (filterTable demoEmptySelection (loadTable demoRecords)) =
      ⟨"Obesity by Gender", []⟩ :=
  ⟨by decide,
   c7_empty_view_renders (loadTable demoRecords) demoEmptySelection (by decide)⟩

/-- C8: filtering is idempotent and non-mutating: re-running the filter
with the same control values over its own output returns it unchanged,
and the filtered view is a subsequence of the untouched source table
(the source, with its AgeBand column computed at load, is never written). -/
theorem c8_filter_idempotent (t : List Row) (s : Selection) :
    filterTable s (filterTable s t) = filterTable s t ∧
    (filterTable s t).Sublist t := by
  constructor
  · unfold filterTable
    rw [List.filter_filter]
    apply List.filter_congr
    intro r _
    exact Bool.and_self (rowMask s r)
  · exact List.filter_sublist t

/-- C9: for every table and selection the filtered view is a
subsequence of the loaded table; every loaded row's AgeBand column is
exactly the pure age-bucket function of its Age, fixed at load time; and
filtering passes each row through with that column untouched. -/
theorem c9_view_subset_ageband_pure (recs : List Record) (s : Selection) :
    (filterTable s (loadTable recs)).Sublist (loadTable recs) ∧
    (∀ row : Row, row ∈ loadTable recs → row.ageBandCol = ageBand row.raw.age) ∧
    (∀ row : Row, row ∈ filterTable s (loadTable recs) →
      row.ageBandCol = ageBand row.raw.age) := by
  have hload : ∀ row : Row, row ∈ loadTable recs → row.ageBandCol = ageBand row.raw.age := by
    intro row hrow
    unfold loadTable at hrow
    obtain ⟨r, _, rfl⟩ := List.mem_map.mp hrow
    rfl
  refine ⟨List.filter_sublist _, hload, ?_⟩
  intro row hrow
  exact hload row ((mem_filterTable_iff s _ row).mp hrow).1

/-- Witness for C9 at the demo table: the filtered view is a
subsequence, and the first loaded row's AgeBand column is the age bucket
of 25. -/
theorem c9_view_subset_ageband_pure_witness :
    (filterTable demoSelection (loadTable demoRecords)).Sublist (loadTable demoRecords) ∧
    demoRow1.ageBandCol = ageBand (25 : ℚ) :=
  ⟨(c9_view_subset_ageband_pure demoRecords demoSelection).1,
   (c9_view_subset_ageband_pure demoRecords demoSelection).2.1 demoRow1 (by decide)⟩

/-- C10: raising the FAF threshold never adds a row to the filtered
view, and enlarging an already non-empty Gender, FAVC or CALC
multi-select never removes one. -/
theorem c10_filter_monotone (t : List Row) (s : Selection) (thr : ℚ)
    (g fv ca : List String) :
    (s.faf ≤ thr → ∀ r : Row,
      r ∈ filterTable { s with faf := thr } t → r ∈ filterTable s t) ∧
    (s.gender ≠ [] → s.gender ⊆ g → ∀ r : Row,
      r ∈ filterTable s t → r ∈ filterTable { s with gender := g } t) ∧
    (s.favc ≠ [] → s.favc ⊆ fv → ∀ r : Row,
      r ∈ filterTable s t → r ∈ filterTable { s with favc := fv } t) ∧
    (s.calcSel ≠ [] → s.calcSel ⊆ ca → ∀ r : Row,
      r ∈ filterTable s t → r ∈ filterTable { s with calcSel := ca } t) := by
  refine ⟨?_, ?_, ?_, ?_⟩
  · intro hthr r hr
    rw [mem_filterTable_iff] at hr ⊢
    unfold specMask at hr ⊢
    obtain ⟨hmem, h1, h2, h3, h4⟩ := hr
    exact ⟨hmem, h1, h2, h3, le_trans hthr h4⟩
  · intro hne hsub r hr
    rw [mem_filterTable_iff] at hr ⊢
    unfold specMask at hr ⊢
    obtain ⟨hmem, h1, h2, h3, h4⟩ := hr
    rcases h1 with h1 | h1
    · exact ⟨hmem, Or.inl (hsub h1), h2, h3, h4⟩
    · exact absurd h1 hne
  · intro hne hsub r hr
    rw [mem_filterTable_iff] at hr ⊢
    unfold specMask at hr ⊢
    obtain ⟨hmem, h1, h2, h3, h4⟩ := hr
    rcases h2 with h2 | h2
    · exact ⟨hmem, h1, Or.inl (hsub h2), h3, h4⟩
    · exact absurd h2 hne
  · intro hne hsub r hr
    rw [mem_filterTable_iff] at hr ⊢
    unfold specMask at hr ⊢
    obtain ⟨hmem, h1, h2, h3, h4⟩ := hr
    rcases h3 with h3 | h3
    · exact ⟨hmem, h1, h2, Or.inl (hsub h3), h4⟩
    · exact absurd h3 hne

/-- Witness for C10 at the demo table with every multi-select non-empty:
each monotonicity part applies concretely to the retained first row. -/
theorem c10_filter_monotone_witness :
    (demoRow1 ∈ filterTable demoFullSelection (loadTable demoRecords)) ∧
    (demoRow1 ∈ filterTable { demoFullSelection with gender := ["Male", "Female"] }
      (loadTable demoRecords)) ∧
    (demoRow1 ∈ filterTable { demoFullSelection with favc := ["no", "yes"] }
      (loadTable demoRecords)) ∧
    (demoRow1 ∈ filterTable { demoFullSelection with calcSel := ["Sometimes", "no"] }
      (loadTable demoRecords)) := by
  have h := c10_filter_monotone (loadTable demoRecords) demoFullSelection 1
    ["Male", "Female"] ["no", "yes"] ["Sometimes", "no"]
  exact ⟨h.1 (by decide) demoRow1 (by decide),
    h.2.1 (by decide) (by decide) demoRow1 (by decide),
    h.2.2.1 (by decide) (by decide) demoRow1 (by decide),
    h.2.2.2 (by decide) (by decide) demoRow1 (by decide)⟩

end Datascape
